import Mathlib

/-!
Shallow embedding of `client/src/components/student-goals.tsx`.

The component computes a clamped progress percentage, classifies it into
status/color tiers, selects at most one daily and one weekly goal from a
fetched list, renders either an empty state or one card per selected goal,
and runs a delete mutation whose success handler invalidates the goals
query and whose error handler shows a toast.

JavaScript numbers are embedded as `JsVal`: NaN, positive infinity, or a
finite value represented exactly as a rational.  All inputs reaching the
arithmetic are non-negative integers, so negative infinity never arises.
Finite arithmetic is modelled exactly over ℚ (the integer inputs in the
claims keep IEEE rounding away from every decision point considered here).
-/

/-- JavaScript number values arising in this component. -/
inductive JsVal where
  | nan : JsVal
  | inf : JsVal
  | num : ℚ → JsVal
deriving DecidableEq, Repr

/-- JavaScript division `current / target` for non-negative integer inputs:
`0 / 0` is NaN, `c / 0` for `c > 0` is positive infinity, otherwise the
exact quotient. -/
def jsDiv (a b : ℕ) : JsVal :=
  if b = 0 then (if a = 0 then JsVal.nan else JsVal.inf) else JsVal.num ((a : ℚ) / (b : ℚ))

/-- Multiplication by the literal 100, as in `(current / target) * 100`. -/
def jsMul100 : JsVal → JsVal
  | JsVal.nan => JsVal.nan
  | JsVal.inf => JsVal.inf
  | JsVal.num q => JsVal.num (q * 100)

/-- `Math.round`: on finite values rounds half toward positive infinity,
i.e. `⌊x + 1/2⌋`; NaN and infinity pass through. -/
def jsRound : JsVal → JsVal
  | JsVal.nan => JsVal.nan
  | JsVal.inf => JsVal.inf
  | JsVal.num q => JsVal.num ((⌊q + 1/2⌋ : ℤ) : ℚ)

/-- `Math.min(x, 100)`: NaN absorbs; `Math.min(Infinity, 100) = 100`. -/
def jsMin100 : JsVal → JsVal
  | JsVal.nan => JsVal.nan
  | JsVal.inf => JsVal.num 100
  | JsVal.num q => JsVal.num (min q 100)

/-- `getProgressPercentage(current, target)`:
`Math.min(Math.round((current / target) * 100), 100)`. -/
def getProgressPercentage (current target : ℕ) : JsVal :=
  jsMin100 (jsRound (jsMul100 (jsDiv current target)))

/-- JavaScript comparison `x >= c`: false when `x` is NaN. -/
def jsGe (v : JsVal) (c : ℚ) : Bool :=
  match v with
  | JsVal.nan => false
  | JsVal.inf => true
  | JsVal.num q => decide (c ≤ q)

/-- `getStatusColor(percentage)`: threshold chain over 100 / 75 / 50. -/
def getStatusColor (percentage : JsVal) : String :=
  if jsGe percentage 100 then "bg-green-500"
  else if jsGe percentage 75 then "bg-blue-500"
  else if jsGe percentage 50 then "bg-yellow-500"
  else "bg-slate-400"

/-- `getStatusBadge(percentage)`: the badge label text rendered for each
tier (the surrounding `<Badge>` markup is presentation only). -/
def getStatusBadge (percentage : JsVal) : String :=
  if jsGe percentage 100 then "Completed"
  else if jsGe percentage 75 then "Almost There"
  else if jsGe percentage 50 then "In Progress"
  else "Just Started"

/-- The `Goal` record fetched from the data source. -/
structure Goal where
  id : ℤ
  type : String
  target : ℕ
  current : ℕ
  date : String
deriving DecidableEq, Repr

/-- `goals.find(g => g.type === "daily")`. -/
def dailyGoalOf (goals : List Goal) : Option Goal :=
  goals.find? (fun g => g.type == "daily")

/-- `goals.find(g => g.type === "weekly")`. -/
def weeklyGoalOf (goals : List Goal) : Option Goal :=
  goals.find? (fun g => g.type == "weekly")

/-- The observable content of one rendered `GoalCard`. -/
structure CardView where
  title : String
  goalId : ℤ
  shownProgress : ℕ
  shownTarget : ℕ
  percentage : JsVal
  badge : String
deriving DecidableEq, Repr

/-- `GoalCard({goal, progress, type})`: percentage from the live progress
counter and the goal's target, badge from the percentage. -/
def mkGoalCard (goal : Goal) (progress : ℕ) (type : String) : CardView :=
  let percentage := getProgressPercentage progress goal.target
  { title := if type = "daily" then "Daily Goal" else "Weekly Goal"
    goalId := goal.id
    shownProgress := progress
    shownTarget := goal.target
    percentage := percentage
    badge := getStatusBadge percentage }

/-- What `StudentGoals` renders: the empty-state card or a list of goal
cards. -/
inductive RenderOutput where
  | emptyState : RenderOutput
  | goalCards : List CardView → RenderOutput
deriving DecidableEq, Repr

/-- The render logic of `StudentGoals`: `!goals || goals.length === 0`
gives the empty state; otherwise the daily card (when a daily goal is
found) followed by the weekly card (when a weekly goal is found), with
progress `todayProgress?.completed_today || 0` resp.
`weekProgress?.completed_week || 0`. -/
def renderStudentGoals (goals : Option (List Goal))
    (todayProgress weekProgress : Option ℕ) : RenderOutput :=
  match goals with
  | none => RenderOutput.emptyState
  | some gs =>
    if gs.length = 0 then RenderOutput.emptyState
    else
      RenderOutput.goalCards
        ((match dailyGoalOf gs with
          | some g => [mkGoalCard g (todayProgress.getD 0) "daily"]
          | none => []) ++
         (match weeklyGoalOf gs with
          | some g => [mkGoalCard g (weekProgress.getD 0) "weekly"]
          | none => []))

/-- The cards of a render output (empty for the empty state). -/
def cardsOf : RenderOutput → List CardView
  | RenderOutput.emptyState => []
  | RenderOutput.goalCards cs => cs

/-- A toast notification as produced by `useToast`. -/
structure Toast where
  title : String
  description : String
  variant : Option String
deriving DecidableEq, Repr

/-- Client-side cache and notification state touched by the delete
mutation handlers: the cached results of the three reads, the log of
query keys passed to `invalidateQueries`, and the toasts shown. -/
structure ClientState where
  goalsCache : Option (List Goal)
  todayCache : Option ℕ
  weekCache : Option ℕ
  invalidated : List (List String)
  toasts : List Toast
deriving DecidableEq, Repr

/-- Query key `["/api/student", studentRegNo, "goals"]`. -/
def goalsQueryKey (studentRegNo : String) : List String :=
  ["/api/student", studentRegNo, "goals"]

/-- Query key `["/api/student", studentRegNo, "today-progress"]`. -/
def todayProgressQueryKey (studentRegNo : String) : List String :=
  ["/api/student", studentRegNo, "today-progress"]

/-- Query key `["/api/student", studentRegNo, "week-progress"]`. -/
def weekProgressQueryKey (studentRegNo : String) : List String :=
  ["/api/student", studentRegNo, "week-progress"]

/-- The toast shown by the delete mutation's `onSuccess`. -/
def successToast : Toast :=
  { title := "Goal Deleted"
    description := "Your goal has been deleted successfully."
    variant := none }

/-- The toast shown by the delete mutation's `onError`. -/
def errorToast : Toast :=
  { title := "Error"
    description := "Failed to delete goal. Please try again."
    variant := some "destructive" }

/-- `onSuccess` of `deleteGoalMutation`: invalidate the goals query and
show the success toast. -/
def onDeleteSuccess (studentRegNo : String) (s : ClientState) : ClientState :=
  { s with
    invalidated := s.invalidated ++ [goalsQueryKey studentRegNo]
    toasts := s.toasts ++ [successToast] }

/-- `onError` of `deleteGoalMutation`: show the destructive error toast. -/
def onDeleteError (s : ClientState) : ClientState :=
  { s with toasts := s.toasts ++ [errorToast] }

/-- One run of the delete mutation for a given request outcome.  The first
component is the client state while the request is in flight (`mutationFn`
only performs the network call, so no optimistic update is applied); the
second is the state after the matching handler ran. -/
def deleteGoalMutate (studentRegNo : String) (succeeded : Bool)
    (s : ClientState) : ClientState × ClientState :=
  (s, if succeeded then onDeleteSuccess studentRegNo s else onDeleteError s)

/-- The finite percentage value produced for a positive target. -/
def pctQ (current target : ℕ) : ℚ :=
  min ((⌊(current : ℚ) / (target : ℚ) * 100 + 1/2⌋ : ℤ) : ℚ) 100

theorem getProgressPercentage_pos_target (current target : ℕ) (ht : 0 < target) :
    getProgressPercentage current target = JsVal.num (pctQ current target) := by
  unfold getProgressPercentage jsDiv jsMul100 jsRound jsMin100 pctQ
  rw [if_neg (Nat.pos_iff_ne_zero.mp ht)]

theorem pctQ_nonneg (current target : ℕ) : 0 ≤ pctQ current target := by
  unfold pctQ
  have hq : (0 : ℚ) ≤ (current : ℚ) / (target : ℚ) * 100 := by positivity
  have hfl : (0 : ℤ) ≤ ⌊(current : ℚ) / (target : ℚ) * 100 + 1/2⌋ :=
    Int.floor_nonneg.mpr (by linarith)
  have h0 : (0 : ℚ) ≤ ((⌊(current : ℚ) / (target : ℚ) * 100 + 1/2⌋ : ℤ) : ℚ) := by
    exact_mod_cast hfl
  exact le_min h0 (by norm_num)

theorem pctQ_le_100 (current target : ℕ) : pctQ current target ≤ 100 :=
  min_le_right _ _

theorem pctQ_saturates (current target : ℕ) (ht : 0 < target)
    (hct : target ≤ current) : pctQ current target = 100 := by
  have htq : (0 : ℚ) < (target : ℚ) := by exact_mod_cast ht
  have h1 : (1 : ℚ) ≤ (current : ℚ) / (target : ℚ) :=
    (one_le_div htq).mpr (by exact_mod_cast hct)
  have h100 : (100 : ℚ) ≤ (current : ℚ) / (target : ℚ) * 100 := by nlinarith
  have hfl : (100 : ℤ) ≤ ⌊(current : ℚ) / (target : ℚ) * 100 + 1/2⌋ :=
    Int.le_floor.mpr (by push_cast; linarith)
  unfold pctQ
  rw [min_eq_right]
  exact_mod_cast hfl

theorem pctQ_mul_comm_form (current target : ℕ) :
    pctQ current target
      = min ((⌊100 * (current : ℚ) / (target : ℚ) + 1/2⌋ : ℤ) : ℚ) 100 := by
  unfold pctQ
  congr 2
  ring_nf

/-- C1: for every non-negative integer progress and positive integer
target, `getProgressPercentage` returns
`clamp(round(100 × progress / target), 0, 100)`, which equals
`min(round(100 × progress / target), 100)` and lies in `[0, 100]`. -/
theorem spec_C1_percentage_clamped (progress target : ℕ) (ht : 0 < target) :
    getProgressPercentage progress target
      = JsVal.num (min ((⌊100 * (progress : ℚ) / (target : ℚ) + 1/2⌋ : ℤ) : ℚ) 100) ∧
    getProgressPercentage progress target
      = JsVal.num (max 0 (min ((⌊100 * (progress : ℚ) / (target : ℚ) + 1/2⌋ : ℤ) : ℚ) 100)) ∧
    ∃ q : ℚ, getProgressPercentage progress target = JsVal.num q ∧ 0 ≤ q ∧ q ≤ 100 := by
  have hmain := getProgressPercentage_pos_target progress target ht
  have hform := pctQ_mul_comm_form progress target
  have h0 := pctQ_nonneg progress target
  have h100 := pctQ_le_100 progress target
  refine ⟨by rw [hmain, hform], ?_, ⟨pctQ progress target, hmain, h0, h100⟩⟩
  rw [hmain, hform.symm, max_eq_right h0]

/-- C1 witness: progress 1, target 4 gives 25, inside the clamped range. -/
theorem spec_C1_percentage_clamped_witness :
    ∃ q : ℚ, getProgressPercentage 1 4 = JsVal.num q ∧ 0 ≤ q ∧ q ≤ 100 :=
  (spec_C1_percentage_clamped 1 4 (by norm_num)).2.2

/-- C2: for all progress ≥ target > 0, the percentage is exactly 100, the
status badge reads "Completed", and the displayed percentage never exceeds
100. -/
theorem spec_C2_over_achievement_completed (progress target : ℕ) (ht : 0 < target)
    (hpt : target ≤ progress) :
    getProgressPercentage progress target = JsVal.num 100 ∧
    getStatusBadge (getProgressPercentage progress target) = "Completed" ∧
    ∀ q : ℚ, getProgressPercentage progress target = JsVal.num q → q ≤ 100 := by
  have hmain := getProgressPercentage_pos_target progress target ht
  have hsat := pctQ_saturates progress target ht hpt
  rw [hmain, hsat]
  refine ⟨rfl, by decide, ?_⟩
  intro q hq
  have : (100 : ℚ) = q := by injection hq
  rw [← this]

/-- C2 witness: progress 13 against target 10 shows 100 and "Completed". -/
theorem spec_C2_over_achievement_completed_witness :
    getProgressPercentage 13 10 = JsVal.num 100 ∧
    getStatusBadge (getProgressPercentage 13 10) = "Completed" :=
  ⟨(spec_C2_over_achievement_completed 13 10 (by norm_num) (by norm_num)).1,
   (spec_C2_over_achievement_completed 13 10 (by norm_num) (by norm_num)).2.1⟩

/-- C3: the status label is a total function of percentage into exactly
four tiers checked from the highest threshold down, and with target = 100
progress 75 / 50 / 49 yield "Almost There" / "In Progress" /
"Just Started". -/
theorem spec_C3_status_tiers :
    (∀ q : ℚ, 100 ≤ q → getStatusBadge (JsVal.num q) = "Completed") ∧
    (∀ q : ℚ, 75 ≤ q → q < 100 → getStatusBadge (JsVal.num q) = "Almost There") ∧
    (∀ q : ℚ, 50 ≤ q → q < 75 → getStatusBadge (JsVal.num q) = "In Progress") ∧
    (∀ q : ℚ, q < 50 → getStatusBadge (JsVal.num q) = "Just Started") ∧
    (∀ v : JsVal, getStatusBadge v = "Completed" ∨ getStatusBadge v = "Almost There" ∨
      getStatusBadge v = "In Progress" ∨ getStatusBadge v = "Just Started") ∧
    getStatusBadge (getProgressPercentage 75 100) = "Almost There" ∧
    getStatusBadge (getProgressPercentage 50 100) = "In Progress" ∧
    getStatusBadge (getProgressPercentage 49 100) = "Just Started" := by
  have e75 : getProgressPercentage 75 100 = JsVal.num 75 := by
    rw [getProgressPercentage_pos_target 75 100 (by norm_num)]
    have : pctQ 75 100 = 75 := by unfold pctQ; norm_num
    rw [this]
  have e50 : getProgressPercentage 50 100 = JsVal.num 50 := by
    rw [getProgressPercentage_pos_target 50 100 (by norm_num)]
    have : pctQ 50 100 = 50 := by unfold pctQ; norm_num
    rw [this]
  have e49 : getProgressPercentage 49 100 = JsVal.num 49 := by
    rw [getProgressPercentage_pos_target 49 100 (by norm_num)]
    have : pctQ 49 100 = 49 := by unfold pctQ; norm_num
    rw [this]
  refine ⟨?_, ?_, ?_, ?_, ?_,
    by rw [e75]; decide, by rw [e50]; decide, by rw [e49]; decide⟩
  · intro q h
    simp [getStatusBadge, jsGe, h]
  · intro q h1 h2
    simp [getStatusBadge, jsGe, h1, not_le.mpr h2]
  · intro q h1 h2
    have h75 : ¬(75 : ℚ) ≤ q := not_le.mpr h2
    have h100 : ¬(100 : ℚ) ≤ q := not_le.mpr (by linarith)
    simp [getStatusBadge, jsGe, h1, h75, h100]
  · intro q h
    have h50 : ¬(50 : ℚ) ≤ q := not_le.mpr h
    have h75 : ¬(75 : ℚ) ≤ q := not_le.mpr (by linarith)
    have h100 : ¬(100 : ℚ) ≤ q := not_le.mpr (by linarith)
    simp [getStatusBadge, jsGe, h50, h75, h100]
  · intro v
    unfold getStatusBadge
    split_ifs <;> simp

/-- C3 witness: percentage 80 lies in the "Almost There" tier. -/
theorem spec_C3_status_tiers_witness :
    getStatusBadge (JsVal.num 80) = "Almost There" :=
  spec_C3_status_tiers.2.1 80 (by norm_num) (by norm_num)

/-- C4: at target = 0 the code has no fallback: with current = 0 the
division yields NaN and the non-finite value propagates to the displayed
percentage (it is not 0 and not a distinct invalid status); with
current > 0 the chain yields 100 only because Math.min(Infinity, 100)
is 100.  The badge chain itself never throws (NaN fails every comparison
and lands on "Just Started"). -/
theorem spec_C4_target_zero_no_fallback :
    getProgressPercentage 0 0 = JsVal.nan ∧
    JsVal.nan ≠ JsVal.num 0 ∧
    getProgressPercentage 5 0 = JsVal.num 100 ∧
    getStatusBadge (getProgressPercentage 0 0) = "Just Started" ∧
    getStatusColor (getProgressPercentage 0 0) = "bg-slate-400" := by
  refine ⟨rfl, by decide, by decide, rfl, rfl⟩

/-- C5: the color tier and the status label cross the same thresholds and
are in one-to-one correspondence: Completed ↔ green, Almost There ↔ blue,
In Progress ↔ yellow, Just Started ↔ slate. -/
theorem spec_C5_color_badge_correspondence (v : JsVal) :
    ((getStatusBadge v = "Completed" ∧ getStatusColor v = "bg-green-500") ∨
     (getStatusBadge v = "Almost There" ∧ getStatusColor v = "bg-blue-500") ∨
     (getStatusBadge v = "In Progress" ∧ getStatusColor v = "bg-yellow-500") ∨
     (getStatusBadge v = "Just Started" ∧ getStatusColor v = "bg-slate-400")) ∧
    (getStatusBadge v = "Completed" ↔ getStatusColor v = "bg-green-500") ∧
    (getStatusBadge v = "Almost There" ↔ getStatusColor v = "bg-blue-500") ∧
    (getStatusBadge v = "In Progress" ↔ getStatusColor v = "bg-yellow-500") ∧
    (getStatusBadge v = "Just Started" ↔ getStatusColor v = "bg-slate-400") := by
  cases v with
  | nan => decide
  | inf => decide
  | num q =>
    unfold getStatusBadge getStatusColor
    split_ifs <;> decide

/-- C5 witness: at percentage 60 the badge is "In Progress" and the color
is yellow, matching the correspondence. -/
theorem spec_C5_color_badge_correspondence_witness :
    getStatusBadge (JsVal.num 60) = "In Progress"
      ↔ getStatusColor (JsVal.num 60) = "bg-yellow-500" :=
  (spec_C5_color_badge_correspondence (JsVal.num 60)).2.2.2.1

/-- C10: for fixed target > 0 the percentage is monotone non-decreasing in
progress, and from progress = target on it stays constantly 100. -/
theorem spec_C10_percentage_monotone (target p1 p2 : ℕ) (ht : 0 < target)
    (hp : p1 ≤ p2) :
    getProgressPercentage p1 target = JsVal.num (pctQ p1 target) ∧
    getProgressPercentage p2 target = JsVal.num (pctQ p2 target) ∧
    pctQ p1 target ≤ pctQ p2 target ∧
    (target ≤ p1 → pctQ p1 target = 100 ∧ pctQ p2 target = 100) := by
  refine ⟨getProgressPercentage_pos_target p1 target ht,
    getProgressPercentage_pos_target p2 target ht, ?_, ?_⟩
  · have htq : (0 : ℚ) < (target : ℚ) := by exact_mod_cast ht
    have hpq : ((p1 : ℚ)) ≤ (p2 : ℚ) := by exact_mod_cast hp
    have hbase : (p1 : ℚ) / (target : ℚ) * 100 + 1/2
        ≤ (p2 : ℚ) / (target : ℚ) * 100 + 1/2 := by gcongr
    have hfl := Int.floor_le_floor hbase
    unfold pctQ
    exact min_le_min (by exact_mod_cast hfl) le_rfl
  · intro h1
    exact ⟨pctQ_saturates p1 target ht h1,
      pctQ_saturates p2 target ht (le_trans h1 hp)⟩

/-- C10 witness: target 8, progress 3 then 5: 38 ≤ 63. -/
theorem spec_C10_percentage_monotone_witness :
    pctQ 3 8 ≤ pctQ 5 8 :=
  (spec_C10_percentage_monotone 8 3 5 (by norm_num) (by norm_num)).2.2.1

/-- C9: absent goal data and an empty goal list both render the
empty-state output with no cards; they are indistinguishable in the
output. -/
theorem spec_C9_empty_and_absent_agree (t w : Option ℕ) :
    renderStudentGoals none t w = RenderOutput.emptyState ∧
    renderStudentGoals (some []) t w = RenderOutput.emptyState ∧
    renderStudentGoals none t w = renderStudentGoals (some []) t w ∧
    cardsOf (renderStudentGoals none t w) = [] ∧
    cardsOf (renderStudentGoals (some []) t w) = [] :=
  ⟨rfl, rfl, rfl, rfl, rfl⟩

/-- C9 witness: with concrete progress counters present, absent data and
the empty list still both give the empty state. -/
theorem spec_C9_empty_and_absent_agree_witness :
    renderStudentGoals none (some 3) (some 7) = RenderOutput.emptyState ∧
    renderStudentGoals (some []) (some 3) (some 7) = RenderOutput.emptyState ∧
    renderStudentGoals none (some 3) (some 7)
      = renderStudentGoals (some []) (some 3) (some 7) ∧
    cardsOf (renderStudentGoals none (some 3) (some 7)) = [] ∧
    cardsOf (renderStudentGoals (some []) (some 3) (some 7)) = [] :=
  spec_C9_empty_and_absent_agree (some 3) (some 7)

/-- C7: delete success invalidates exactly the goals-list query key and
shows the success toast; the today-progress and week-progress keys are
not invalidated and no cached read state changes. -/
theorem spec_C7_delete_success_frame (studentRegNo : String) (s : ClientState) :
    (onDeleteSuccess studentRegNo s).invalidated
      = s.invalidated ++ [goalsQueryKey studentRegNo] ∧
    (onDeleteSuccess studentRegNo s).toasts = s.toasts ++ [successToast] ∧
    (onDeleteSuccess studentRegNo s).goalsCache = s.goalsCache ∧
    (onDeleteSuccess studentRegNo s).todayCache = s.todayCache ∧
    (onDeleteSuccess studentRegNo s).weekCache = s.weekCache ∧
    (deleteGoalMutate studentRegNo true s).1 = s ∧
    (deleteGoalMutate studentRegNo true s).2 = onDeleteSuccess studentRegNo s ∧
    todayProgressQueryKey studentRegNo ∉ [goalsQueryKey studentRegNo] ∧
    weekProgressQueryKey studentRegNo ∉ [goalsQueryKey studentRegNo] ∧
    successToast.variant ≠ some "destructive" := by
  refine ⟨rfl, rfl, rfl, rfl, rfl, rfl, rfl, ?_, ?_, by decide⟩
  · simp [todayProgressQueryKey, goalsQueryKey]
  · simp [weekProgressQueryKey, goalsQueryKey]

/-- C7 witness: concrete student and empty initial client state. -/
theorem spec_C7_delete_success_frame_witness :
    (onDeleteSuccess "2023CS001" (ClientState.mk none none none [] [])).invalidated
      = [] ++ [goalsQueryKey "2023CS001"] ∧
    todayProgressQueryKey "2023CS001" ∉ [goalsQueryKey "2023CS001"] :=
  ⟨(spec_C7_delete_success_frame "2023CS001" (ClientState.mk none none none [] [])).1,
   (spec_C7_delete_success_frame "2023CS001"
     (ClientState.mk none none none [] [])).2.2.2.2.2.2.2.1⟩

/-- C8: delete failure shows the destructive error toast, invalidates no
query, changes no cached state (the goal stays listed), and applies no
optimistic update while the request is in flight. -/
theorem spec_C8_delete_failure_frame (studentRegNo : String) (s : ClientState) :
    (deleteGoalMutate studentRegNo false s).1 = s ∧
    (deleteGoalMutate studentRegNo false s).2 = onDeleteError s ∧
    (onDeleteError s).toasts = s.toasts ++ [errorToast] ∧
    errorToast.variant = some "destructive" ∧
    (onDeleteError s).invalidated = s.invalidated ∧
    (onDeleteError s).goalsCache = s.goalsCache ∧
    (onDeleteError s).todayCache = s.todayCache ∧
    (onDeleteError s).weekCache = s.weekCache :=
  ⟨rfl, rfl, rfl, rfl, rfl, rfl, rfl, rfl⟩

/-- C8 witness: concrete student, a state whose cache lists one goal; the
failure path leaves the cached goal list untouched. -/
theorem spec_C8_delete_failure_frame_witness :
    (deleteGoalMutate "2023CS001" false
        (ClientState.mk (some [Goal.mk 1 "daily" 10 0 "2025-01-01"]) none none [] [])).2.goalsCache
      = (ClientState.mk (some [Goal.mk 1 "daily" 10 0 "2025-01-01"]) none none [] []).goalsCache
      := by
  have h := (spec_C8_delete_failure_frame "2023CS001"
    (ClientState.mk (some [Goal.mk 1 "daily" 10 0 "2025-01-01"]) none none [] []))
  rw [h.2.1]
  exact h.2.2.2.2.2.1

theorem find?_first_split {α : Type} (p : α → Bool) :
    ∀ (l : List α) (a : α), l.find? p = some a →
      ∃ l1 l2, l = l1 ++ a :: l2 ∧ p a = true ∧ ∀ x ∈ l1, p x = false := by
  intro l
  induction l with
  | nil =>
    intro a h
    simp at h
  | cons b t ih =>
    intro a h
    cases hb : p b with
    | true =>
      rw [List.find?_cons_of_pos _ hb] at h
      obtain rfl : b = a := Option.some.inj h
      exact ⟨[], t, rfl, hb, by simp⟩
    | false =>
      rw [List.find?_cons_of_neg _ (by simp [hb])] at h
      obtain ⟨l1, l2, hsplit, hpa, hl1⟩ := ih a h
      refine ⟨b :: l1, l2, by rw [hsplit]; rfl, hpa, ?_⟩
      intro x hx
      rcases List.mem_cons.mp hx with hxb | hx2
      · rw [hxb]; exact hb
      · exact hl1 x hx2

/-- The card list rendered for a present (possibly empty) goal list. -/
def renderedCards (goals : List Goal) (todayProgress weekProgress : Option ℕ) :
    List CardView :=
  cardsOf (renderStudentGoals (some goals) todayProgress weekProgress)

theorem renderedCards_eq (gs : List Goal) (t w : Option ℕ) :
    renderedCards gs t w
      = ((dailyGoalOf gs).map (fun g => mkGoalCard g (t.getD 0) "daily")).toList
        ++ ((weeklyGoalOf gs).map (fun g => mkGoalCard g (w.getD 0) "weekly")).toList := by
  unfold renderedCards renderStudentGoals cardsOf
  rcases gs with _ | ⟨g, gs2⟩
  · simp [dailyGoalOf, weeklyGoalOf]
  · rcases hd : dailyGoalOf (g :: gs2) with _ | g1 <;>
      rcases hw : weeklyGoalOf (g :: gs2) with _ | g2 <;>
      simp [hd, hw]

theorem mkGoalCard_daily_title (g : Goal) (p : ℕ) :
    (mkGoalCard g p "daily").title = "Daily Goal" := rfl

theorem mkGoalCard_weekly_title (g : Goal) (p : ℕ) :
    (mkGoalCard g p "weekly").title = "Weekly Goal" := rfl

theorem filter_daily_cards (gs : List Goal) (t w : Option ℕ) :
    (renderedCards gs t w).filter (fun c => c.title == "Daily Goal")
      = ((dailyGoalOf gs).map (fun g => mkGoalCard g (t.getD 0) "daily")).toList := by
  rw [renderedCards_eq]
  rcases dailyGoalOf gs with _ | g1 <;> rcases weeklyGoalOf gs with _ | g2 <;>
    simp [mkGoalCard_daily_title, mkGoalCard_weekly_title]

theorem filter_weekly_cards (gs : List Goal) (t w : Option ℕ) :
    (renderedCards gs t w).filter (fun c => c.title == "Weekly Goal")
      = ((weeklyGoalOf gs).map (fun g => mkGoalCard g (w.getD 0) "weekly")).toList := by
  rw [renderedCards_eq]
  rcases dailyGoalOf gs with _ | g1 <;> rcases weeklyGoalOf gs with _ | g2 <;>
    simp [mkGoalCard_daily_title, mkGoalCard_weekly_title]

/-- C6: goal selection picks at most one goal per kind, namely the first
goal of that kind in data-source order; when no goal of a kind exists the
corresponding card is omitted entirely. -/
theorem spec_C6_goal_selection (gs : List Goal) (t w : Option ℕ) :
    ((renderedCards gs t w).filter (fun c => c.title == "Daily Goal")).length ≤ 1 ∧
    ((renderedCards gs t w).filter (fun c => c.title == "Weekly Goal")).length ≤ 1 ∧
    ((∀ g ∈ gs, g.type ≠ "daily") →
      (renderedCards gs t w).filter (fun c => c.title == "Daily Goal") = []) ∧
    ((∀ g ∈ gs, g.type ≠ "weekly") →
      (renderedCards gs t w).filter (fun c => c.title == "Weekly Goal") = []) ∧
    (∀ g, dailyGoalOf gs = some g →
      (renderedCards gs t w).filter (fun c => c.title == "Daily Goal")
        = [mkGoalCard g (t.getD 0) "daily"]) ∧
    (∀ g, weeklyGoalOf gs = some g →
      (renderedCards gs t w).filter (fun c => c.title == "Weekly Goal")
        = [mkGoalCard g (w.getD 0) "weekly"]) ∧
    (∀ g, dailyGoalOf gs = some g →
      ∃ l1 l2, gs = l1 ++ g :: l2 ∧ g.type = "daily" ∧ ∀ x ∈ l1, x.type ≠ "daily") ∧
    (∀ g, weeklyGoalOf gs = some g →
      ∃ l1 l2, gs = l1 ++ g :: l2 ∧ g.type = "weekly" ∧ ∀ x ∈ l1, x.type ≠ "weekly") := by
  refine ⟨?_, ?_, ?_, ?_, ?_, ?_, ?_, ?_⟩
  · rw [filter_daily_cards]
    rcases dailyGoalOf gs with _ | g1 <;> simp
  · rw [filter_weekly_cards]
    rcases weeklyGoalOf gs with _ | g1 <;> simp
  · intro h
    have hnone : dailyGoalOf gs = none := by
      unfold dailyGoalOf
      rw [List.find?_eq_none]
      intro x hx
      simpa using h x hx
    rw [filter_daily_cards, hnone]
    rfl
  · intro h
    have hnone : weeklyGoalOf gs = none := by
      unfold weeklyGoalOf
      rw [List.find?_eq_none]
      intro x hx
      simpa using h x hx
    rw [filter_weekly_cards, hnone]
    rfl
  · intro g hg
    rw [filter_daily_cards, hg]
    rfl
  · intro g hg
    rw [filter_weekly_cards, hg]
    rfl
  · intro g hg
    unfold dailyGoalOf at hg
    obtain ⟨l1, l2, hsplit, hpg, hl1⟩ :=
      find?_first_split (fun x => x.type == "daily") gs g hg
    exact ⟨l1, l2, hsplit, by simpa using hpg,
      fun x hx => by simpa using hl1 x hx⟩
  · intro g hg
    unfold weeklyGoalOf at hg
    obtain ⟨l1, l2, hsplit, hpg, hl1⟩ :=
      find?_first_split (fun x => x.type == "weekly") gs g hg
    exact ⟨l1, l2, hsplit, by simpa using hpg,
      fun x hx => by simpa using hl1 x hx⟩

/-- C6 witness: a list with two daily goals and one weekly goal renders
one daily card for the first daily goal and one weekly card. -/
theorem spec_C6_goal_selection_witness :
    (renderedCards
        [Goal.mk 1 "daily" 10 0 "d1", Goal.mk 2 "daily" 20 0 "d2",
         Goal.mk 3 "weekly" 50 0 "w1"] (some 4) (some 9)).filter
        (fun c => c.title == "Daily Goal")
      = [mkGoalCard (Goal.mk 1 "daily" 10 0 "d1") 4 "daily"] := by
  have h := (spec_C6_goal_selection
    [Goal.mk 1 "daily" 10 0 "d1", Goal.mk 2 "daily" 20 0 "d2",
     Goal.mk 3 "weekly" 50 0 "w1"] (some 4) (some 9)).2.2.2.2.1
  exact h (Goal.mk 1 "daily" 10 0 "d1") rfl
